import Mathlib

/-!
Verification of the conversation-completion service of the recipe-chatbot
repository (`backend/utils.py`) against its natural-language specification.

The module under verification is a single function `get_agent_response`
plus two module-level constants, `SYSTEM_PROMPT` and `MODEL_NAME`.  We give
a shallow embedding: a chat message dict becomes a `Turn`, the litellm
completion call becomes an explicit `Provider` argument (a function from a
model name and a message list to either an error or a `Completion` value),
Python exceptions become the `Except` monad, and `os.environ` becomes an
explicit `env : String → Option String` argument.  `str.strip()` is
modelled by `strip` below, which removes leading and trailing whitespace
characters from both ends of a string.
-/

/-- One chat message: a dict with keys "role" and "content" in the Python
source (`List[Dict[str, str]]`), with role one of "system", "user",
"assistant". -/
structure Turn where
  role : String
  content : String
deriving DecidableEq, Repr

/-- A conversation is an ordered list of turns (`List[Dict[str, str]]`). -/
abbrev Conversation := List Turn

/-- The fixed system instruction text, `SYSTEM_PROMPT` in backend/utils.py
(lines 21-90).  In the source it is an f-string with no substitution
fields, so its value is this literal text. -/
def SYSTEM_PROMPT : String := "You are a friendly and creative culinary assistant specializing in providing recipes from Turkish cuisine.

## Rules
- Always answer in English.
- Always provide ingredient lists with precise measurements using standard units.
- Always include clear, step-by-step instructions.
- Always make the recipe as simple as possible, and palatable for a wide audience.
- Never suggest recipes that require extremely rare or unobtainable ingredients without providing readily available alternatives.
- Never suggest recipes that require advanced cooking techniques or equipment.

Important: If a user asks for a recipe that is unsafe, unethical, or promotes harmful activities, politely decline and state you cannot fulfill that request, without being preachy.


## Agency Freedom
Feel free to suggest common variations or substitutions for ingredients that could be difficult to find. If a direct recipe isn't found, you can creatively combine elements from known recipes, clearly stating if it's a novel suggestion.
You can freely create recipes that are original.

## Output Format
Structure all your recipe responses clearly using Markdown for formatting.
Begin every recipe response with the recipe name as a Level 2 Heading (e.g., ## Amazing Blueberry Muffins).
Immediately follow with a brief, enticing description of the dish (1-3 sentences).
Next, include a section titled ### Ingredients. List all ingredients using a Markdown unordered list (bullet points).
Finally, provide a section titled ### Instructions. List the steps for preparing the recipe using a Markdown numbered list.
Optionally, you can include a section titled ### Notes with additional information.

## Example output

```markdown
## Turkish Karnıyarık (Stuffed Eggplants)

A beloved Turkish classic featuring roasted eggplants stuffed with a flavorful meat filling and baked to perfection.

### Ingredients
* 4 medium-sized eggplants
* 1/2 lb (225g) ground beef
* 1 medium onion, finely chopped
* 2 tomatoes, diced (reserve half for topping)
* 2 green peppers, diced (reserve half for topping)
* 3 cloves garlic, minced
* 3 tbsp olive oil
* 1 tbsp tomato paste
* 1/4 cup chopped fresh parsley
* 1 tsp salt
* 1/2 tsp black pepper
* 1/2 tsp cumin
* 1/4 cup water

### Instructions
1. Preheat the oven to 375°F (190°C).
2. Peel thin strips of skin lengthwise from the eggplants to create a striped pattern.
3. Cut a slit lengthwise in each eggplant, being careful not to cut all the way through.
4. Salt the eggplants and let them sit for 15 minutes to reduce bitterness. Rinse and pat dry.
5. Heat 2 tbsp olive oil in a large pan and fry the eggplants on all sides until softened. Set aside on paper towels.
6. In the same pan, heat 1 tbsp olive oil and sauté the onions until translucent.
7. Add ground beef and cook until browned, breaking it up with a spoon.
8. Add half the diced tomatoes, half the peppers, garlic, tomato paste, salt, pepper, and cumin. Cook for 5 minutes.
9. Stir in the parsley and remove from heat.
10. Place eggplants in a baking dish and gently open the slits to create pockets.
11. Fill each eggplant with the meat mixture and top with remaining diced tomatoes and peppers.
12. Pour water around the eggplants and bake for 30-35 minutes until the eggplants are fully tender.
13. Serve hot, traditionally with rice or bread on the side.

### Tips
* For an authentic touch, add a thin slice of tomato and green pepper on top of each stuffed eggplant before baking.
* This dish tastes even better the next day after the flavors have had time to meld together.
```

"

/-- The configured model identifier, `MODEL_NAME` in backend/utils.py
(lines 93-98).  The source reads
`Path.cwd().with_suffix("") and __import__("os").environ.get("MODEL_NAME", "gpt-3.5-turbo")`;
a `Path` object is always truthy, so the `and` always yields its right
operand, `os.environ.get("MODEL_NAME", "gpt-3.5-turbo")`.  Python's
`dict.get(key, default)` returns the stored value whenever the key is
present -- including a stored empty string -- and the default only when
the key is absent.  The environment is passed explicitly here. -/
def MODEL_NAME (env : String → Option String) : String :=
  (env "MODEL_NAME").getD "gpt-3.5-turbo"

/-- The `message` field of one litellm choice: has a `content` string. -/
structure Message where
  content : String
deriving DecidableEq, Repr

/-- One element of the provider response's `choices` list. -/
structure Choice where
  message : Message
deriving DecidableEq, Repr

/-- The provider response shape the code depends on:
`{ choices: [ { message: { content: string } }, ... ] }`. -/
structure Completion where
  choices : List Choice
deriving DecidableEq, Repr

/-- A Python exception surfacing from `get_agent_response`:
either an exception raised inside `litellm.completion` (network,
authentication, provider-side...), or the IndexError raised by the
unguarded `completion["choices"][0]` when `choices` is empty. -/
inductive PyError where
  | providerError (msg : String)
  | indexError
deriving DecidableEq, Repr

/-- The external completion provider, `litellm.completion`: takes the
model name and the message list, returns a `Completion` or raises. -/
abbrev Provider := String → Conversation → Except PyError Completion

/-- The local variable `current_messages` of `get_agent_response`
(utils.py lines 121-125):
`if not messages or messages[0]["role"] != "system"` then
`[{"role": "system", "content": SYSTEM_PROMPT}] + messages` else
`messages`.  `Option.all` on `head?` renders Python's
`not messages or messages[0]["role"] != "system"`: it is `true` on the
empty list and otherwise tests the first element. -/
def current_messages (messages : Conversation) : Conversation :=
  if messages.head?.all (fun first => first.role != "system") then
    [Turn.mk "system" SYSTEM_PROMPT] ++ messages
  else
    messages

/-- Model of Python's `str.strip()` with no argument: remove leading and
trailing whitespace characters.  Written by structural recursion over the
character list so that it evaluates on concrete strings. -/
def strip (s : String) : String :=
  String.mk
    (((s.data.dropWhile Char.isWhitespace).reverse.dropWhile
      Char.isWhitespace).reverse)

/-- The local variable `assistant_reply_content` (utils.py lines 132-134):
`completion["choices"][0]["message"]["content"].strip()`.  Indexing `[0]`
on an empty list raises IndexError. -/
def assistant_reply_content (completion : Completion) : Except PyError String :=
  match completion.choices with
  | [] => Except.error PyError.indexError
  | choice :: _ => Except.ok (strip choice.message.content)

/-- `get_agent_response` (utils.py lines 104-140): build
`current_messages`, call `litellm.completion(model=MODEL_NAME,
messages=current_messages)` (any exception propagates), extract the first
choice's stripped content (IndexError propagates), and return
`current_messages + [{"role": "assistant", "content": assistant_reply_content}]`. -/
def get_agent_response (provider : Provider) (env : String → Option String)
    (messages : Conversation) : Except PyError Conversation :=
  match provider (MODEL_NAME env) (current_messages messages) with
  | Except.error e => Except.error e
  | Except.ok completion =>
    match assistant_reply_content completion with
    | Except.error e => Except.error e
    | Except.ok reply =>
      Except.ok (current_messages messages ++ [Turn.mk "assistant" reply])

/-- A deterministic stubbed provider that always succeeds with a single
choice holding `reply`. -/
def stubProvider (reply : String) : Provider :=
  fun _ _ => Except.ok (Completion.mk [Choice.mk (Message.mk reply)])

/-- A provider that always raises `e`. -/
def failingProvider (e : PyError) : Provider :=
  fun _ _ => Except.error e

/-- A provider that returns a response whose `choices` list is empty. -/
def emptyChoicesProvider : Provider :=
  fun _ _ => Except.ok (Completion.mk [])

/-- An environment with no variables set. -/
def noEnv : String → Option String :=
  fun _ => none

-- Helper lemmas shared by the claim theorems.

/-- `current_messages` either prepends the system turn (when the input is
empty or starts with a non-system turn) or returns the input unchanged. -/
theorem current_messages_eq_cond (messages : Conversation) :
    current_messages messages =
      (if messages.head?.all (fun first => first.role != "system") then
        [Turn.mk "system" SYSTEM_PROMPT] else []) ++ messages := by
  unfold current_messages
  cases hb : messages.head?.all (fun first => first.role != "system") <;> simp [hb]

/-- The dispatched sequence always starts with a turn of role "system". -/
theorem current_messages_head (messages : Conversation) :
    (current_messages messages).head?.map Turn.role = some "system" := by
  unfold current_messages
  cases messages with
  | nil => simp
  | cons first rest =>
    by_cases h : first.role = "system"
    · simp [h]
    · simp [h]

/-- Characterization of a successful run of `get_agent_response`: the
provider succeeded with a non-empty choices list, and the output is the
dispatched sequence plus one assistant turn holding the trimmed content
of the first choice. -/
theorem get_agent_response_ok_iff (provider : Provider)
    (env : String → Option String) (messages out : Conversation) :
    get_agent_response provider env messages = Except.ok out ↔
      ∃ completion choice rest,
        provider (MODEL_NAME env) (current_messages messages)
          = Except.ok completion ∧
        completion.choices = choice :: rest ∧
        out = current_messages messages
          ++ [Turn.mk "assistant" (strip choice.message.content)] := by
  unfold get_agent_response
  cases hp : provider (MODEL_NAME env) (current_messages messages) with
  | error e => simp [hp]
  | ok completion =>
    cases hc : completion.choices with
    | nil =>
      simp only [assistant_reply_content, hc]
      constructor
      · intro h; cases h
      · rintro ⟨c, ch, rest, hcomp, hchoices, -⟩
        cases hcomp
        rw [hc] at hchoices
        cases hchoices
    | cons choice rest =>
      simp only [assistant_reply_content, hc]
      constructor
      · intro h
        cases h
        exact ⟨completion, choice, rest, rfl, hc, rfl⟩
      · rintro ⟨c, ch, r, hcomp, hchoices, hout⟩
        cases hcomp
        rw [hc] at hchoices
        cases hchoices
        rw [hout]

-- Claim theorems.

/-- C1: for every input conversation that is empty or whose first turn's
role is not "system", `get_agent_response` dispatches to the provider the
sequence made of one synthetic turn {role "system", content SYSTEM_PROMPT}
followed by all turns of the input in their original order: the dispatched
sequence `current_messages` equals that sequence, and the whole call equals
the provider applied to exactly that sequence, post-processed. -/
theorem C1_prepends_fixed_system_turn (messages : Conversation)
    (h : messages.head?.all (fun first => first.role != "system") = true) :
    current_messages messages = Turn.mk "system" SYSTEM_PROMPT :: messages ∧
    ∀ (provider : Provider) (env : String → Option String),
      get_agent_response provider env messages =
        match provider (MODEL_NAME env)
            (Turn.mk "system" SYSTEM_PROMPT :: messages) with
        | Except.error e => Except.error e
        | Except.ok completion =>
          match assistant_reply_content completion with
          | Except.error e => Except.error e
          | Except.ok reply =>
            Except.ok ((Turn.mk "system" SYSTEM_PROMPT :: messages)
              ++ [Turn.mk "assistant" reply]) := by
  have hd : current_messages messages
      = Turn.mk "system" SYSTEM_PROMPT :: messages := by
    unfold current_messages
    rw [h]
    rfl
  refine ⟨hd, fun provider env => ?_⟩
  unfold get_agent_response
  rw [hd]

/-- C1 witness: the scenario input `[{user, "Suggest a dessert"}]` from the
spec; the dispatched sequence is the system turn followed by the input. -/
theorem C1_prepends_fixed_system_turn_witness :
    current_messages [Turn.mk "user" "Suggest a dessert"] =
      Turn.mk "system" SYSTEM_PROMPT :: [Turn.mk "user" "Suggest a dessert"] :=
  (C1_prepends_fixed_system_turn [Turn.mk "user" "Suggest a dessert"] rfl).1

/-- C2: for every input conversation whose first turn already has role
"system", `get_agent_response` dispatches the input sequence unchanged:
`current_messages` is the input itself, and the whole call equals the
provider applied to exactly the input, post-processed. -/
theorem C2_dispatches_unchanged (messages : Conversation)
    (first : Turn) (rest : Conversation)
    (hm : messages = first :: rest) (hrole : first.role = "system") :
    current_messages messages = messages ∧
    ∀ (provider : Provider) (env : String → Option String),
      get_agent_response provider env messages =
        match provider (MODEL_NAME env) messages with
        | Except.error e => Except.error e
        | Except.ok completion =>
          match assistant_reply_content completion with
          | Except.error e => Except.error e
          | Except.ok reply =>
            Except.ok (messages ++ [Turn.mk "assistant" reply]) := by
  have hd : current_messages messages = messages := by
    unfold current_messages
    subst hm
    simp [hrole]
  refine ⟨hd, fun provider env => ?_⟩
  unfold get_agent_response
  rw [hd]

/-- C2 witness: the scenario input `[{system, "custom"}, {user, "hi"}]`
from the spec is dispatched unchanged. -/
theorem C2_dispatches_unchanged_witness :
    current_messages [Turn.mk "system" "custom", Turn.mk "user" "hi"] =
      [Turn.mk "system" "custom", Turn.mk "user" "hi"] :=
  (C2_dispatches_unchanged [Turn.mk "system" "custom", Turn.mk "user" "hi"]
    (Turn.mk "system" "custom") [Turn.mk "user" "hi"] rfl rfl).1

/-- C3: for every input conversation and every successful provider
response, the output equals the dispatched sequence with exactly one turn
appended, of role "assistant" and content the provider's first choice's
message content trimmed of leading and trailing whitespace. -/
theorem C3_appends_trimmed_reply (provider : Provider)
    (env : String → Option String) (messages : Conversation)
    (completion : Completion) (choice : Choice) (rest : List Choice)
    (hp : provider (MODEL_NAME env) (current_messages messages)
      = Except.ok completion)
    (hc : completion.choices = choice :: rest) :
    get_agent_response provider env messages =
      Except.ok (current_messages messages
        ++ [Turn.mk "assistant" (strip choice.message.content)]) :=
  (get_agent_response_ok_iff provider env messages _).mpr
    ⟨completion, choice, rest, hp, hc, rfl⟩

/-- C3 witness: the spec scenario with empty input and a stub returning
content "  Hello!  "; the output appends {assistant, "Hello!"}. -/
theorem C3_appends_trimmed_reply_witness :
    get_agent_response (stubProvider "  Hello!  ") noEnv [] =
      Except.ok [Turn.mk "system" SYSTEM_PROMPT,
        Turn.mk "assistant" "Hello!"] := by
  have h := C3_appends_trimmed_reply (stubProvider "  Hello!  ") noEnv []
    (Completion.mk [Choice.mk (Message.mk "  Hello!  ")])
    (Choice.mk (Message.mk "  Hello!  ")) [] rfl rfl
  rw [h]
  rfl

/-- C4: on every successful call the first turn of the returned sequence
has role "system", whether the input already started with a system turn
or one was prepended. -/
theorem C4_output_starts_with_system (provider : Provider)
    (env : String → Option String) (messages out : Conversation)
    (hok : get_agent_response provider env messages = Except.ok out) :
    out.head?.map Turn.role = some "system" := by
  obtain ⟨completion, choice, rest, -, -, hout⟩ :=
    (get_agent_response_ok_iff provider env messages out).mp hok
  have hhead := current_messages_head messages
  cases hcur : current_messages messages with
  | nil => rw [hcur] at hhead; cases hhead
  | cons c cs =>
    rw [hcur] at hhead
    rw [hout, hcur]
    simpa using hhead

/-- C4 witness: a successful call on the empty conversation with a stub
provider; the first output turn has role "system". -/
theorem C4_output_starts_with_system_witness :
    ([Turn.mk "system" SYSTEM_PROMPT,
      Turn.mk "assistant" "yo"] : Conversation).head?.map Turn.role
      = some "system" :=
  C4_output_starts_with_system (stubProvider "yo") noEnv []
    [Turn.mk "system" SYSTEM_PROMPT, Turn.mk "assistant" "yo"] rfl

/-- C5: on success the output length is the dispatched length plus one;
equivalently the input length plus one when the input starts with a
system turn, and the input length plus two otherwise (a system turn was
prepended and an assistant turn appended). -/
theorem C5_output_length (provider : Provider)
    (env : String → Option String) (messages out : Conversation)
    (hok : get_agent_response provider env messages = Except.ok out) :
    out.length = (current_messages messages).length + 1 ∧
    out.length = messages.length +
      (if messages.head?.all (fun first => first.role != "system")
       then 2 else 1) := by
  obtain ⟨completion, choice, rest, -, -, hout⟩ :=
    (get_agent_response_ok_iff provider env messages out).mp hok
  subst hout
  constructor
  · simp
  · rw [current_messages_eq_cond messages]
    cases hb : messages.head?.all (fun first => first.role != "system") <;>
      simp [hb]

/-- C5 witness: empty input, stub provider; the output has length 2 =
input length + 2 = dispatched length + 1. -/
theorem C5_output_length_witness :
    ([Turn.mk "system" SYSTEM_PROMPT,
      Turn.mk "assistant" "yo"] : Conversation).length
      = (current_messages []).length + 1 ∧
    ([Turn.mk "system" SYSTEM_PROMPT,
      Turn.mk "assistant" "yo"] : Conversation).length
      = ([] : Conversation).length +
        (if ([] : Conversation).head?.all (fun first => first.role != "system")
         then 2 else 1) :=
  C5_output_length (stubProvider "yo") noEnv []
    [Turn.mk "system" SYSTEM_PROMPT, Turn.mk "assistant" "yo"] rfl

/-- C6 counterexample: the claim says the fallback "gpt-3.5-turbo" is used
when MODEL_NAME is absent or empty, but with MODEL_NAME present and equal
to the empty string, `os.environ.get("MODEL_NAME", "gpt-3.5-turbo")`
returns the stored empty string, not the fallback: the configured model
identifier is "" there. -/
theorem C6_model_name_counterexample :
    MODEL_NAME (fun name => if name = "MODEL_NAME" then some "" else none)
      = "" ∧
    MODEL_NAME (fun name => if name = "MODEL_NAME" then some "" else none)
      ≠ "gpt-3.5-turbo" :=
  ⟨rfl, by decide⟩

/-- C6 (amended): the configured model identifier equals the value of the
environment variable MODEL_NAME whenever it is set -- including when it is
set to the empty string, which yields the empty identifier, not the
fallback -- and equals "gpt-3.5-turbo" exactly when MODEL_NAME is absent;
this resolved value is what is passed to the provider on every call: the
result of `get_agent_response` depends on the provider only through its
behaviour at the resolved model name and the dispatched sequence. -/
theorem C6_model_name_resolution (env : String → Option String)
    (p q : Provider) (messages : Conversation)
    (hagree : p (MODEL_NAME env) (current_messages messages)
      = q (MODEL_NAME env) (current_messages messages)) :
    (env "MODEL_NAME" = none → MODEL_NAME env = "gpt-3.5-turbo") ∧
    (∀ v, env "MODEL_NAME" = some v → MODEL_NAME env = v) ∧
    get_agent_response p env messages = get_agent_response q env messages := by
  refine ⟨?_, ?_, ?_⟩
  · intro h
    unfold MODEL_NAME
    rw [h]
    rfl
  · intro v h
    unfold MODEL_NAME
    rw [h]
    rfl
  · unfold get_agent_response
    rw [hagree]

/-- C6 witness: with no environment variable set the resolved model name
is the fallback, and two providers that agree at the resolved model give
the same result. -/
theorem C6_model_name_resolution_witness :
    MODEL_NAME noEnv = "gpt-3.5-turbo" ∧
    get_agent_response (stubProvider "a") noEnv []
      = get_agent_response (stubProvider "a") noEnv [] :=
  ⟨(C6_model_name_resolution noEnv (stubProvider "a") (stubProvider "a")
      [] rfl).1 rfl,
   (C6_model_name_resolution noEnv (stubProvider "a") (stubProvider "a")
      [] rfl).2.2⟩

/-- C7: if the provider call raises an error, `get_agent_response`
propagates that same error unmodified and returns no sequence: the result
is exactly `Except.error e`, so no assistant turn is appended and no
partial conversation is produced. -/
theorem C7_error_propagation (provider : Provider)
    (env : String → Option String) (messages : Conversation) (e : PyError)
    (herr : provider (MODEL_NAME env) (current_messages messages)
      = Except.error e) :
    get_agent_response provider env messages = Except.error e := by
  unfold get_agent_response
  rw [herr]

/-- C7 witness: a provider raising an authentication error; the same
error surfaces unmodified. -/
theorem C7_error_propagation_witness :
    get_agent_response
      (failingProvider (PyError.providerError "AuthenticationError"))
      noEnv [Turn.mk "user" "hi"]
      = Except.error (PyError.providerError "AuthenticationError") :=
  C7_error_propagation
    (failingProvider (PyError.providerError "AuthenticationError"))
    noEnv [Turn.mk "user" "hi"] (PyError.providerError "AuthenticationError")
    rfl

/-- C8: if the provider returns a response whose choices list is empty,
`get_agent_response` fails with the IndexError raised by the unguarded
`completion["choices"][0]` rather than returning a conversation. -/
theorem C8_empty_choices_fail (provider : Provider)
    (env : String → Option String) (messages : Conversation)
    (completion : Completion)
    (hok : provider (MODEL_NAME env) (current_messages messages)
      = Except.ok completion)
    (hempty : completion.choices = []) :
    get_agent_response provider env messages
      = Except.error PyError.indexError := by
  unfold get_agent_response
  rw [hok]
  simp only [assistant_reply_content, hempty]

/-- C8 witness: a provider returning an empty choices list makes the call
fail with IndexError. -/
theorem C8_empty_choices_fail_witness :
    get_agent_response emptyChoicesProvider noEnv [Turn.mk "user" "hi"]
      = Except.error PyError.indexError :=
  C8_empty_choices_fail emptyChoicesProvider noEnv [Turn.mk "user" "hi"]
    (Completion.mk []) rfl rfl

/-- C9: `get_agent_response` is deterministic given the provider's
behaviour: two calls with the same input conversation, the same
environment and the same (deterministic, stubbed) provider yield
identical output sequences.  In this pure embedding the function has no
other source of behaviour, so the two results are definitionally equal. -/
theorem C9_deterministic (provider : Provider) (env : String → Option String)
    (messages : Conversation) :
    get_agent_response provider env messages
      = get_agent_response provider env messages := rfl

/-- C10: `get_agent_response` never mutates the caller's input: the
embedding is a pure function on immutable lists -- faithful to the
source, which only builds fresh lists with `+` (list concatenation) and
never calls a mutating method -- and on success the output is the
unchanged input sequence surrounded by the possibly-prepended system turn
and the appended assistant turn, so the original turns appear in their
original order. -/
theorem C10_input_preserved (provider : Provider)
    (env : String → Option String) (messages out : Conversation)
    (hok : get_agent_response provider env messages = Except.ok out) :
    ∃ reply : String,
      out = (if messages.head?.all (fun first => first.role != "system")
          then [Turn.mk "system" SYSTEM_PROMPT] else []) ++ messages
        ++ [Turn.mk "assistant" reply] := by
  obtain ⟨completion, choice, rest, -, -, hout⟩ :=
    (get_agent_response_ok_iff provider env messages out).mp hok
  refine ⟨strip choice.message.content, ?_⟩
  rw [hout, current_messages_eq_cond]

/-- C10 witness: on input `[{user, "hi"}]` with a stub provider the
output is the prepended system turn, the untouched input turn, and the
appended assistant turn. -/
theorem C10_input_preserved_witness :
    ∃ reply : String,
      ([Turn.mk "system" SYSTEM_PROMPT, Turn.mk "user" "hi",
        Turn.mk "assistant" "ok"] : Conversation) =
      (if ([Turn.mk "user" "hi"] : Conversation).head?.all
          (fun first => first.role != "system")
        then [Turn.mk "system" SYSTEM_PROMPT] else [])
        ++ [Turn.mk "user" "hi"] ++ [Turn.mk "assistant" reply] :=
  C10_input_preserved (stubProvider "ok") noEnv [Turn.mk "user" "hi"]
    [Turn.mk "system" SYSTEM_PROMPT, Turn.mk "user" "hi",
      Turn.mk "assistant" "ok"] rfl
